import Mathlib

/-!
Verification of the star-schema ETL pipeline (`etl_star_schema.py`) of the
mobile-shop data-warehouse project.

The pipeline is embedded shallowly: a pandas DataFrame of transactions is a
`List` of records, SQL tables are lists of row structures, and the SQLite
connection state is an explicit `Warehouse` structure.  Each Lean definition
mirrors one function of `etl_star_schema.py` and carries the source name.
-/

namespace ETL

/-- A calendar date `(year, month, day)`; the time-of-day part of
`Transaction_DateTime` is never used by the pipeline's logic (only `.date()`,
calendar components and the `YYYYMMDD` key are), so it is not modelled. -/
structure Date where
  year : Nat
  month : Nat
  day : Nat
deriving DecidableEq, Repr

/-- Number of days of a month in the proleptic Gregorian calendar
(pandas semantics of `pd.date_range(..., freq='D')`). -/
def daysInMonth (y m : Nat) : Nat :=
  if m = 2 then
    if y % 4 = 0 ∧ (y % 100 ≠ 0 ∨ y % 400 = 0) then 29 else 28
  else if m = 4 ∨ m = 6 ∨ m = 9 ∨ m = 11 then 30
  else 31

/-- A well-formed Gregorian date. -/
def validDate (d : Date) : Prop :=
  1 ≤ d.month ∧ d.month ≤ 12 ∧ 1 ≤ d.day ∧ d.day ≤ daysInMonth d.year d.month

instance : DecidablePred validDate := fun d => by
  unfold validDate; infer_instance

/-- The next calendar day (the daily step of `pd.date_range(..., freq='D')`). -/
def nextDate (d : Date) : Date :=
  if d.day < daysInMonth d.year d.month then ⟨d.year, d.month, d.day + 1⟩
  else if d.month < 12 then ⟨d.year, d.month + 1, 1⟩
  else ⟨d.year + 1, 1, 1⟩

/-- `int(date.strftime('%Y%m%d'))`: the `YYYYMMDD` integer date key. -/
def dateKey (d : Date) : Nat :=
  d.year * 10000 + d.month * 100 + d.day

/-- `date.strftime('%Y-%m')` / `dt.to_period('M')`: the year-month bucket.
Months below 10 are zero-padded. -/
def yearMonthStr (d : Date) : String :=
  toString d.year ++ "-" ++ (if d.month < 10 then "0" else "") ++ toString d.month

/-- A raw transaction record as served by the API (`extract_data`'s rows).
Monetary fields are exact integers (cents-style); nothing in the pipeline
depends on their scale. -/
structure RawTxn where
  transaction_id : Nat
  datetime : Date
  product_id : Nat
  customer_id : Nat
  staff_id : Nat
  supplier_id : Nat
  product_name : String
  category : String
  brand : String
  model : String
  product_type : String
  unit_price : Int
  order_type : String
  payment_method : String
  transaction_status : String
  quantity : Nat
  total_amount : Int
  discount_applied : Int
  delivery_time_min : Nat
  customer_rating : Int
  inventory_level : Nat
  customer_age : Int
  customer_gender : String
deriving DecidableEq, Repr

/-- `pd.cut(df['Customer_Age'], bins=[0,25,35,45,55,100], labels=[...])`:
half-open-left bins `(0,25], (25,35], (35,45], (45,55], (55,100]`; an age
outside every bin yields `NaN` (here `none`), not an error. -/
def ageGroup (age : Int) : Option String :=
  if 0 < age ∧ age ≤ 25 then some "18-25"
  else if 25 < age ∧ age ≤ 35 then some "26-35"
  else if 35 < age ∧ age ≤ 45 then some "36-45"
  else if 45 < age ∧ age ≤ 55 then some "46-55"
  else if 55 < age ∧ age ≤ 100 then some "56+"
  else none

/-- A transformed transaction: the raw record plus the derived columns added
by `transform_data`, including the per-row placeholder surrogate keys
`Product_Key`, `Customer_Key`, `Staff_Key`, `Supplier_Key`. -/
structure TransformedTxn where
  raw : RawTxn
  age_group : Option String
  date : Date
  year : Nat
  month : Nat
  day : Nat
  year_month : String
  product_key : Nat
  customer_key : Nat
  staff_key : Nat
  supplier_key : Nat
deriving DecidableEq, Repr

/-- `transform_data(df)`: adds age-group, date components and the four
per-row surrogate-key columns `range(1, len(df)+1)`. -/
def transform_data (df : List RawTxn) : List TransformedTxn :=
  df.enum.map fun p =>
    { raw := p.2
      age_group := ageGroup p.2.customer_age
      date := p.2.datetime
      year := p.2.datetime.year
      month := p.2.datetime.month
      day := p.2.datetime.day
      year_month := yearMonthStr p.2.datetime
      product_key := p.1 + 1
      customer_key := p.1 + 1
      staff_key := p.1 + 1
      supplier_key := p.1 + 1 }

/-- Accumulator worker for `dropDuplicates`: `seen` is the set of key
values already emitted. -/
def dropDupAux {α : Type} {κ : Type} [DecidableEq κ] (key : α → κ)
    (seen : List κ) : List α → List α
  | [] => []
  | x :: xs =>
      if key x ∈ seen then dropDupAux key seen xs
      else x :: dropDupAux key (key x :: seen) xs

/-- `DataFrame.drop_duplicates(subset)`: keep the first row of each group of
rows sharing a `key` value, preserving order. -/
def dropDuplicates {α : Type} {κ : Type} [DecidableEq κ] (key : α → κ)
    (l : List α) : List α :=
  dropDupAux key [] l

/-- A row of `dim_product` (columns after the rename on line 116). -/
structure ProductRow where
  product_id : Nat
  product_key : Nat
  product_name : String
  category : String
  brand : String
  model : String
  product_type : String
  unit_price : Int
deriving DecidableEq, Repr

/-- A row of `dim_customer`. -/
structure CustomerRow where
  customer_id : Nat
  customer_key : Nat
  customer_age : Int
  customer_gender : String
  age_group : Option String
deriving DecidableEq, Repr

/-- A row of `dim_staff` (and, with renaming, `dim_supplier`): a natural id
and the per-row surrogate key. -/
structure StaffRow where
  staff_id : Nat
  staff_key : Nat
deriving DecidableEq, Repr

/-- `dim_product`: select the product columns and `drop_duplicates('Product_ID')`. -/
def dim_product (df : List TransformedTxn) : List ProductRow :=
  (dropDuplicates (fun t => t.raw.product_id) df).map fun t =>
    { product_id := t.raw.product_id
      product_key := t.product_key
      product_name := t.raw.product_name
      category := t.raw.category
      brand := t.raw.brand
      model := t.raw.model
      product_type := t.raw.product_type
      unit_price := t.raw.unit_price }

/-- `dim_customer`: select the customer columns and `drop_duplicates('Customer_ID')`. -/
def dim_customer (df : List TransformedTxn) : List CustomerRow :=
  (dropDuplicates (fun t => t.raw.customer_id) df).map fun t =>
    { customer_id := t.raw.customer_id
      customer_key := t.customer_key
      customer_age := t.raw.customer_age
      customer_gender := t.raw.customer_gender
      age_group := t.age_group }

/-- `dim_staff`: `df[['Staff_ID','Staff_Key']].drop_duplicates()` — the
deduplication subset is the WHOLE row, i.e. the `(staff_id, staff_key)` pair. -/
def dim_staff (df : List TransformedTxn) : List StaffRow :=
  (dropDuplicates (fun t => (t.raw.staff_id, t.staff_key)) df).map fun t =>
    { staff_id := t.raw.staff_id, staff_key := t.staff_key }

/-- `dim_supplier`: `df[['Supplier_ID','Supplier_Key']].drop_duplicates()`,
likewise deduplicated on the whole `(supplier_id, supplier_key)` pair. -/
def dim_supplier (df : List TransformedTxn) : List StaffRow :=
  (dropDuplicates (fun t => (t.raw.supplier_id, t.supplier_key)) df).map fun t =>
    { staff_id := t.raw.supplier_id, staff_key := t.supplier_key }

/-- `product_mapping = pd.read_sql("SELECT product_id FROM dim_product")`:
only the natural ids, in insertion order. -/
def product_mapping (df : List TransformedTxn) : List Nat :=
  (dim_product df).map (·.product_id)

/-- `customer_mapping = pd.read_sql("SELECT customer_key, customer_id FROM dim_customer")`. -/
def customer_mapping (df : List TransformedTxn) : List (Nat × Nat) :=
  (dim_customer df).map fun r => (r.customer_key, r.customer_id)

/-- `staff_mapping = pd.read_sql("SELECT staff_key, staff_id FROM dim_staff")`. -/
def staff_mapping (df : List TransformedTxn) : List (Nat × Nat) :=
  (dim_staff df).map fun r => (r.staff_key, r.staff_id)

/-- `supplier_mapping = pd.read_sql("SELECT supplier_key, supplier_id FROM dim_supplier")`. -/
def supplier_mapping (df : List TransformedTxn) : List (Nat × Nat) :=
  (dim_supplier df).map fun r => (r.staff_key, r.staff_id)

/-- `y` is a Gregorian leap year. -/
def isLeap (y : Nat) : Bool :=
  y % 4 = 0 && (y % 100 ≠ 0 || y % 400 = 0)

/-- `pandas.Timestamp.dayofweek`: Monday = 0 … Sunday = 6, computed by
Sakamoto's congruence (which yields Sunday = 0, shifted by 6). -/
def dayOfWeek (d : Date) : Nat :=
  let y := if d.month < 3 then d.year - 1 else d.year
  let t := [0, 3, 2, 5, 0, 3, 5, 1, 4, 6, 2, 4]
  (y + y / 4 - y / 100 + y / 400 + t.getD (d.month - 1) 0 + d.day + 6) % 7

/-- `date.strftime('%A')`. -/
def dayName (dow : Nat) : String :=
  match dow with
  | 0 => "Monday" | 1 => "Tuesday" | 2 => "Wednesday" | 3 => "Thursday"
  | 4 => "Friday" | 5 => "Saturday" | _ => "Sunday"

/-- `date.strftime('%B')`. -/
def monthName (m : Nat) : String :=
  match m with
  | 1 => "January" | 2 => "February" | 3 => "March" | 4 => "April"
  | 5 => "May" | 6 => "June" | 7 => "July" | 8 => "August"
  | 9 => "September" | 10 => "October" | 11 => "November" | _ => "December"

/-- Ordinal day within the year (Jan 1 = 1). -/
def dayOfYear (d : Date) : Nat :=
  (List.range (d.month - 1)).foldl (fun acc i => acc + daysInMonth d.year (i + 1)) 0 + d.day

/-- ISO weekday: Monday = 1 … Sunday = 7. -/
def isoWeekday (d : Date) : Nat := dayOfWeek d + 1

/-- Number of ISO weeks in year `y` (53 iff Jan 1 is a Thursday, or a
Wednesday in a leap year). -/
def isoWeeksInYear (y : Nat) : Nat :=
  let jan1 := isoWeekday ⟨y, 1, 1⟩
  if jan1 = 4 ∨ (isLeap y ∧ jan1 = 3) then 53 else 52

/-- `date.isocalendar()[1]`: the ISO-8601 week number. -/
def isoWeek (d : Date) : Nat :=
  let w : Int := (10 + (dayOfYear d : Int) - (isoWeekday d : Int)) / 7
  if w = 0 then isoWeeksInYear (d.year - 1)
  else if w = 53 ∧ isoWeeksInYear d.year = 52 then 1
  else w.toNat

/-- A row of `dim_date` (the dict built on lines 86-99). -/
structure DimDateRow where
  date_key : Nat
  full_date : Date
  year : Nat
  quarter : Nat
  month : Nat
  month_name : String
  week : Nat
  day : Nat
  day_of_week : Nat
  day_name : String
  is_weekend : Nat
  year_month : String
deriving DecidableEq, Repr

/-- The `dim_date` record built for one calendar day. -/
def mkDimDateRow (d : Date) : DimDateRow :=
  { date_key := dateKey d
    full_date := d
    year := d.year
    quarter := (d.month - 1) / 3 + 1
    month := d.month
    month_name := monthName d.month
    week := isoWeek d
    day := d.day
    day_of_week := dayOfWeek d
    day_name := dayName (dayOfWeek d)
    is_weekend := if dayOfWeek d ≥ 5 then 1 else 0
    year_month := yearMonthStr d }

/-- Fuel-bounded daily enumeration from `cur` to `last` inclusive; the fuel
in `dateRange` is always sufficient because `dateKey` grows by at least 1
per `nextDate` step from a valid date. -/
def dateRangeAux : Nat → Date → Date → List Date
  | 0, _, _ => []
  | fuel + 1, cur, last =>
      if cur = last then [cur] else cur :: dateRangeAux fuel (nextDate cur) last

/-- `pd.date_range(start=min_date, end=max_date, freq='D')`. -/
def dateRange (start stop : Date) : List Date :=
  dateRangeAux (dateKey stop + 1 - dateKey start) start stop

/-- `df['Transaction_DateTime'].min().date()`: the earliest date of the
batch `d :: ds`.  Chronological comparison of valid dates coincides with
comparison of their `YYYYMMDD` keys. -/
def minDate (d : Date) (ds : List Date) : Date :=
  ds.foldl (fun a b => if dateKey b < dateKey a then b else a) d

/-- `df['Transaction_DateTime'].max().date()`: the latest date of the batch. -/
def maxDate (d : Date) (ds : List Date) : Date :=
  ds.foldl (fun a b => if dateKey a < dateKey b then b else a) d

/-- `populate_dim_date(conn, df)`: one row per calendar day between the
batch's min and max transaction dates.  `.min()` of an empty column is
`NaT` and the source cannot build a range from it, so the empty batch
yields the empty table here. -/
def populate_dim_date (df : List TransformedTxn) : List DimDateRow :=
  match df.map fun t => t.raw.datetime with
  | [] => []
  | d :: ds => (dateRange (minDate d ds) (maxDate d ds)).map mkDimDateRow

/-- A working row of the `fact` DataFrame inside `populate_fact_table`: the
transformed transaction plus the columns added by the four mapping merges
and the `date_key` assignment.  Fields still to be merged hold `none`, which
is constant across rows and therefore does not disturb the whole-row
`drop_duplicates()` calls. -/
structure FactWork where
  txn : TransformedTxn
  product_m : Option Nat
  customer_m : Option (Nat × Nat)
  date_key : Option Nat
  staff_m : Option (Nat × Nat)
  supplier_m : Option (Nat × Nat)
deriving DecidableEq, Repr

/-- Line 179:
`fact['date_key'] = fact['Transaction_DateTime'].dt.strftime('%Y%m%d').astype(int).drop_duplicates()`.
`Series.drop_duplicates()` keeps only the first index position of each key
value; assigning the result as a column aligns on the index (a fresh
`RangeIndex` after the merges), so a position whose key value already
occurred earlier receives `NaN` (`none`). -/
def assignDateKeyAux (seen : List Nat) : List FactWork → List FactWork
  | [] => []
  | r :: rs =>
      let k := dateKey r.txn.raw.datetime
      { r with date_key := if k ∈ seen then none else some k }
        :: assignDateKeyAux (k :: seen) rs

/-- The `date_key` column assignment of line 179 over the whole frame. -/
def assignDateKey (rows : List FactWork) : List FactWork :=
  assignDateKeyAux [] rows

/-- A row of `fact_transactions` (columns selected and renamed on
lines 190-200).  The selected key columns are the CAPITALISED per-row
placeholders `Product_Key`/`Customer_Key`/`Staff_Key`/`Supplier_Key` from
`transform_data`, not the lower-case columns brought in by the merges. -/
structure FactRow where
  product_key : Nat
  customer_key : Nat
  date_key : Option Nat
  staff_key : Nat
  supplier_key : Nat
  transaction_id : Nat
  transaction_datetime : Date
  order_type : String
  payment_method : String
  transaction_status : String
  quantity : Nat
  total_amount : Int
  discount_applied : Int
  delivery_time_min : Nat
  customer_rating : Int
  inventory_level : Nat
deriving DecidableEq, Repr

/-- `fact = df.copy()` (line 168) seen as working rows with no merged
columns yet. -/
def fact_stage0 (df : List TransformedTxn) : List FactWork :=
  df.map fun t =>
    { txn := t, product_m := none, customer_m := none
      date_key := none, staff_m := none, supplier_m := none }

/-- The row-level effect of the left merge with the deduplicated
`product_mapping` on `Product_ID`: each row gains the (at most one)
matching mapping entry.  `how='left'` keeps unmatched rows; the
`validate='many_to_one'` check cannot fail after the dedup. -/
def mergeProduct (pm : List Nat) (r : FactWork) : FactWork :=
  { r with product_m := (dropDuplicates id pm).find? fun pid =>
      pid == r.txn.raw.product_id }

/-- The row-level effect of the `customer_mapping` merge on `Customer_ID`. -/
def mergeCustomer (cm : List (Nat × Nat)) (r : FactWork) : FactWork :=
  { r with customer_m := (dropDuplicates Prod.snd cm).find? fun m =>
      m.2 == r.txn.raw.customer_id }

/-- The row-level effect of the `staff_mapping` merge on `Staff_ID`. -/
def mergeStaff (sm : List (Nat × Nat)) (r : FactWork) : FactWork :=
  { r with staff_m := (dropDuplicates Prod.snd sm).find? fun m =>
      m.2 == r.txn.raw.staff_id }

/-- The row-level effect of the `supplier_mapping` merge on `Supplier_ID`. -/
def mergeSupplier (supm : List (Nat × Nat)) (r : FactWork) : FactWork :=
  { r with supplier_m := (dropDuplicates Prod.snd supm).find? fun m =>
      m.2 == r.txn.raw.supplier_id }

/-- Lines 171-172: the product merge plus whole-frame `drop_duplicates()`. -/
def fact_stage1 (pm : List Nat) (rows : List FactWork) : List FactWork :=
  dropDuplicates id (rows.map (mergeProduct pm))

/-- Lines 175-176: the customer merge plus whole-frame `drop_duplicates()`. -/
def fact_stage2 (cm : List (Nat × Nat)) (rows : List FactWork) : List FactWork :=
  dropDuplicates id (rows.map (mergeCustomer cm))

/-- Lines 182-183: the staff merge plus whole-frame `drop_duplicates()`. -/
def fact_stage4 (sm : List (Nat × Nat)) (rows : List FactWork) : List FactWork :=
  dropDuplicates id (rows.map (mergeStaff sm))

/-- Lines 186-187: the supplier merge plus whole-frame `drop_duplicates()`. -/
def fact_stage5 (supm : List (Nat × Nat)) (rows : List FactWork) : List FactWork :=
  dropDuplicates id (rows.map (mergeSupplier supm))

/-- Lines 190-200: select and rename the fact columns.  The selected key
columns are the CAPITALISED per-row placeholders `Product_Key` /
`Customer_Key` / `Staff_Key` / `Supplier_Key` from `transform_data`, not
the lower-case columns brought in by the merges. -/
def factSelect (r : FactWork) : FactRow :=
  { product_key := r.txn.product_key
    customer_key := r.txn.customer_key
    date_key := r.date_key
    staff_key := r.txn.staff_key
    supplier_key := r.txn.supplier_key
    transaction_id := r.txn.raw.transaction_id
    transaction_datetime := r.txn.raw.datetime
    order_type := r.txn.raw.order_type
    payment_method := r.txn.raw.payment_method
    transaction_status := r.txn.raw.transaction_status
    quantity := r.txn.raw.quantity
    total_amount := r.txn.raw.total_amount
    discount_applied := r.txn.raw.discount_applied
    delivery_time_min := r.txn.raw.delivery_time_min
    customer_rating := r.txn.raw.customer_rating
    inventory_level := r.txn.raw.inventory_level }

/-- `populate_fact_table(conn, df, product_mapping, customer_mapping,
dim_date, staff_mapping, supplier_mapping)`: the four mapping merges with
the `date_key` assignment of line 179 between the customer and staff
merges, then the column selection.  `dim_date` is passed but unused. -/
def populate_fact_table (df : List TransformedTxn)
    (pm : List Nat) (cm : List (Nat × Nat)) (_dim_date : List DimDateRow)
    (sm : List (Nat × Nat)) (supm : List (Nat × Nat)) : List FactRow :=
  (fact_stage5 supm (fact_stage4 sm (assignDateKey
    (fact_stage2 cm (fact_stage1 pm (fact_stage0 df)))))).map factSelect

/-- SQL inner join: every pair of rows of `l` and `r` satisfying `on`, in
nested-loop order. -/
def innerJoin {α β : Type} (l : List α) (r : List β) (cond : α → β → Bool) :
    List (α × β) :=
  l.flatMap fun a => (r.filter (cond a)).map fun b => (a, b)

/-- SQL `GROUP BY`: one output row per distinct key (in first-appearance
order), aggregated over all input rows with that key. -/
def sqlGroupBy {α κ β : Type} [DecidableEq κ] (key : α → κ)
    (agg : κ → List α → β) (l : List α) : List β :=
  (dropDuplicates id (l.map key)).map fun k =>
    agg k (l.filter fun x => key x == k)

/-- A row of `agg_kpi_revenue_by_dimension`. -/
structure RevenueRow where
  dimension : String
  dimension_value : String
  total_amount : Int
  transaction_count : Nat
  avg_transaction_value : Rat
deriving DecidableEq, Repr

/-- A row of `agg_kpi_status_by_order_type`. -/
structure StatusRow where
  order_type : String
  transaction_status : String
  record_count : Nat
deriving DecidableEq, Repr

/-- A row of `agg_customer_metrics`. -/
structure CustomerMetricsRow where
  age_group : Option String
  gender : String
  year_month : String
  avg_discount_applied : Rat
  avg_customer_rating : Rat
  transaction_count : Nat
  total_revenue : Int
deriving DecidableEq, Repr

/-- A row of `agg_product_type_distribution`. -/
structure PtdRow where
  dimension : String
  dimension_value : String
  product_type : String
  record_count : Nat
  total_revenue : Int
deriving DecidableEq, Repr

/-- `FROM fact_transactions f JOIN dim_product p ON f.product_key =
p.product_key WHERE f.transaction_status = 'Completed'`. -/
def completedProductJoin (facts : List FactRow) (prods : List ProductRow) :
    List (FactRow × ProductRow) :=
  (innerJoin facts prods fun f p => f.product_key == p.product_key).filter
    fun x => x.1.transaction_status == "Completed"

/-- One `SELECT ... GROUP BY` branch of the revenue aggregate. -/
def revenueGroup (dim : String) (val : FactRow × ProductRow → String)
    (j : List (FactRow × ProductRow)) : List RevenueRow :=
  sqlGroupBy val
    (fun k g =>
      { dimension := dim
        dimension_value := k
        total_amount := (g.map fun x => x.1.total_amount).sum
        transaction_count := g.length
        avg_transaction_value :=
          ((g.map fun x => x.1.total_amount).sum : Rat) / (g.length : Rat) })
    j

/-- Aggregate 1 (lines 221-253): revenue by Category / Brand / Model over
Completed transactions, three branches concatenated by `UNION ALL`. -/
def agg_revenue_rows (facts : List FactRow) (prods : List ProductRow) :
    List RevenueRow :=
  revenueGroup "Category" (fun x => x.2.category) (completedProductJoin facts prods)
    ++ revenueGroup "Brand" (fun x => x.2.brand) (completedProductJoin facts prods)
    ++ revenueGroup "Model" (fun x => x.2.model) (completedProductJoin facts prods)

/-- Aggregate 2 (lines 258-263): transaction counts by order type and
status over ALL of `fact_transactions`, with no status filter. -/
def agg_status_rows (facts : List FactRow) : List StatusRow :=
  sqlGroupBy (fun f => (f.order_type, f.transaction_status))
    (fun k g =>
      { order_type := k.1, transaction_status := k.2, record_count := g.length })
    facts

/-- Aggregate 3 (lines 268-280): customer metrics over Completed
transactions joined to `dim_customer` and `dim_date`.  A `NULL` `date_key`
satisfies no SQL equality, so such fact rows join to no date row. -/
def agg_customer_rows (facts : List FactRow) (custs : List CustomerRow)
    (dates : List DimDateRow) : List CustomerMetricsRow :=
  let j := innerJoin
    (innerJoin facts custs fun f c => f.customer_key == c.customer_key)
    dates (fun fc d => fc.1.date_key == some d.date_key)
  let jc := j.filter fun x => x.1.1.transaction_status == "Completed"
  sqlGroupBy (fun x => (x.1.2.age_group, x.1.2.customer_gender, x.2.year_month))
    (fun k g =>
      { age_group := k.1
        gender := k.2.1
        year_month := k.2.2
        avg_discount_applied :=
          ((g.map fun x => x.1.1.discount_applied).sum : Rat) / (g.length : Rat)
        avg_customer_rating :=
          ((g.map fun x => x.1.1.customer_rating).sum : Rat) / (g.length : Rat)
        transaction_count := g.length
        total_revenue := (g.map fun x => x.1.1.total_amount).sum })
    jc

/-- One `SELECT ... GROUP BY` branch of the product-type distribution. -/
def ptdGroup (dim : String) (val : FactRow × ProductRow → String)
    (j : List (FactRow × ProductRow)) : List PtdRow :=
  sqlGroupBy (fun x => (val x, x.2.product_type))
    (fun k g =>
      { dimension := dim
        dimension_value := k.1
        product_type := k.2
        record_count := g.length
        total_revenue := (g.map fun x => x.1.total_amount).sum })
    j

/-- Aggregate 4 (lines 285-320): product-type distribution by Category /
Brand / Model / Product_Name over Completed transactions. -/
def agg_ptd_rows (facts : List FactRow) (prods : List ProductRow) :
    List PtdRow :=
  ptdGroup "Category" (fun x => x.2.category) (completedProductJoin facts prods)
    ++ ptdGroup "Brand" (fun x => x.2.brand) (completedProductJoin facts prods)
    ++ ptdGroup "Model" (fun x => x.2.model) (completedProductJoin facts prods)
    ++ ptdGroup "Product_Name" (fun x => x.2.product_name) (completedProductJoin facts prods)

/-- The SQLite database state: the five dimension tables, the fact table
and the four aggregate tables. -/
structure Warehouse where
  dim_product : List ProductRow
  dim_customer : List CustomerRow
  dim_date : List DimDateRow
  dim_staff : List StaffRow
  dim_supplier : List StaffRow
  fact_transactions : List FactRow
  agg_kpi_revenue_by_dimension : List RevenueRow
  agg_kpi_status_by_order_type : List StatusRow
  agg_customer_metrics : List CustomerMetricsRow
  agg_product_type_distribution : List PtdRow
deriving DecidableEq, Repr

/-- `create_aggregate_tables(conn)`: `BEGIN`, four `INSERT INTO agg_...`
statements (appending to whatever rows the aggregate tables already hold —
no table is dropped or truncated), then `COMMIT`; on any exception the
error is printed, the transaction is rolled back and the function RETURNS
NORMALLY (lines 324-326 swallow the exception).  `failAt = some k` injects
an exception into the `k`-th `INSERT`; the statements executed before it
are discarded by the rollback, so the database is left exactly as it was. -/
def create_aggregate_tables (failAt : Option (Fin 4)) (w : Warehouse) :
    Warehouse :=
  match failAt with
  | some _ => w
  | none =>
      { w with
        agg_kpi_revenue_by_dimension := w.agg_kpi_revenue_by_dimension
          ++ agg_revenue_rows w.fact_transactions w.dim_product
        agg_kpi_status_by_order_type := w.agg_kpi_status_by_order_type
          ++ agg_status_rows w.fact_transactions
        agg_customer_metrics := w.agg_customer_metrics
          ++ agg_customer_rows w.fact_transactions w.dim_customer w.dim_date
        agg_product_type_distribution := w.agg_product_type_distribution
          ++ agg_ptd_rows w.fact_transactions w.dim_product }

/-- The load phase of `main`: replace the dimension tables (`to_sql(...,
if_exists='replace')`), replace the fact table, then run
`create_aggregate_tables`. -/
def run_pipeline (w : Warehouse) (raw : List RawTxn)
    (aggFail : Option (Fin 4)) : Warehouse :=
  let df := transform_data raw
  let w1 : Warehouse :=
    { dim_product := dim_product df
      dim_customer := dim_customer df
      dim_date := populate_dim_date df
      dim_staff := dim_staff df
      dim_supplier := dim_supplier df
      fact_transactions := populate_fact_table df (product_mapping df)
        (customer_mapping df) (populate_dim_date df) (staff_mapping df)
        (supplier_mapping df)
      agg_kpi_revenue_by_dimension := w.agg_kpi_revenue_by_dimension
      agg_kpi_status_by_order_type := w.agg_kpi_status_by_order_type
      agg_customer_metrics := w.agg_customer_metrics
      agg_product_type_distribution := w.agg_product_type_distribution }
  create_aggregate_tables aggFail w1

/-- `main()` around the load phase: any exception raised while computing
the aggregates is caught and printed INSIDE `create_aggregate_tables` and
never propagates, so `main`'s `try` block completes, the success banner is
printed, and the process exits with code 0 — for every failure injection. -/
def main_run (w : Warehouse) (raw : List RawTxn) (aggFail : Option (Fin 4)) :
    Warehouse × Nat :=
  (run_pipeline w raw aggFail, 0)

/-- The fact table exactly as `main` builds it: `populate_fact_table`
applied to the transformed batch and the mappings returned by
`populate_dimensions`. -/
def pipeline_fact_table (raw : List RawTxn) : List FactRow :=
  let df := transform_data raw
  populate_fact_table df (product_mapping df) (customer_mapping df)
    (populate_dim_date df) (staff_mapping df) (supplier_mapping df)

/-! ### Properties of `dropDuplicates` -/

theorem dropDupAux_sublist {α κ : Type} [DecidableEq κ] (key : α → κ) :
    ∀ (seen : List κ) (l : List α), List.Sublist (dropDupAux key seen l) l
  | _, [] => by simp [dropDupAux]
  | seen, x :: xs => by
      simp only [dropDupAux]
      split
      · exact (dropDupAux_sublist key seen xs).cons x
      · exact (dropDupAux_sublist key _ xs).cons₂ x

theorem mem_map_key_dropDupAux {α κ : Type} [DecidableEq κ] (key : α → κ) :
    ∀ (seen : List κ) (l : List α) (a : α), a ∈ l → key a ∉ seen →
      key a ∈ (dropDupAux key seen l).map key
  | seen, x :: xs, a, ha, hs => by
      simp only [dropDupAux]
      rcases List.mem_cons.mp ha with rfl | hmem
      · split
        · exact absurd (by assumption) hs
        · simp
      · split
        · exact mem_map_key_dropDupAux key seen xs a hmem hs
        · by_cases hk : key a = key x
          · simp [hk]
          · simpa using Or.inr
              (mem_map_key_dropDupAux key _ xs a hmem (by simp [hk, hs]))

theorem dropDupAux_key_nodup {α κ : Type} [DecidableEq κ] (key : α → κ) :
    ∀ (seen : List κ) (l : List α),
      ((dropDupAux key seen l).map key).Nodup ∧
        ∀ k ∈ (dropDupAux key seen l).map key, k ∉ seen
  | _, [] => by simp [dropDupAux]
  | seen, x :: xs => by
      simp only [dropDupAux]
      split
      · exact dropDupAux_key_nodup key seen xs
      · obtain ⟨ih₁, ih₂⟩ := dropDupAux_key_nodup key (key x :: seen) xs
        refine ⟨List.nodup_cons.mpr ⟨fun hmem => ?_, ih₁⟩, ?_⟩
        · exact (ih₂ _ hmem) (List.mem_cons_self _ _)
        · intro k hk
          rcases List.mem_cons.mp hk with rfl | hk'
          · assumption
          · exact fun hks => (ih₂ k hk') (List.mem_cons_of_mem _ hks)

theorem dropDupAux_eq_self {α κ : Type} [DecidableEq κ] (key : α → κ) :
    ∀ (seen : List κ) (l : List α), (l.map key).Nodup →
      (∀ x ∈ l, key x ∉ seen) → dropDupAux key seen l = l
  | _, [], _, _ => by simp [dropDupAux]
  | seen, x :: xs, hnd, hout => by
      simp only [dropDupAux, if_neg (hout x (List.mem_cons_self _ _))]
      refine congrArg (x :: ·) (dropDupAux_eq_self key _ xs ?_ ?_)
      · exact (List.nodup_cons.mp (by simpa using hnd)).2
      · intro y hy
        simp only [List.mem_cons, not_or]
        refine ⟨fun hkey => ?_, hout y (List.mem_cons_of_mem _ hy)⟩
        exact (List.nodup_cons.mp (by simpa using hnd)).1 (hkey ▸ List.mem_map_of_mem key hy)

/-- The deduplicated table is a subsequence of its input. -/
theorem dropDuplicates_sublist {α κ : Type} [DecidableEq κ] (key : α → κ)
    (l : List α) : List.Sublist (dropDuplicates key l) l :=
  dropDupAux_sublist key [] l

/-- The key column of a deduplicated table has no duplicates. -/
theorem dropDuplicates_key_nodup {α κ : Type} [DecidableEq κ] (key : α → κ)
    (l : List α) : ((dropDuplicates key l).map key).Nodup :=
  (dropDupAux_key_nodup key [] l).1

/-- A key value survives deduplication iff it occurs in the input. -/
theorem mem_map_key_dropDuplicates {α κ : Type} [DecidableEq κ] (key : α → κ)
    (l : List α) (k : κ) :
    k ∈ (dropDuplicates key l).map key ↔ k ∈ l.map key := by
  constructor
  · exact fun h => ((dropDuplicates_sublist key l).map key).subset h
  · intro h
    obtain ⟨a, ha, rfl⟩ := List.mem_map.mp h
    exact mem_map_key_dropDupAux key [] l a ha (List.not_mem_nil _)

/-- Deduplication is the identity when the key column is already
duplicate-free. -/
theorem dropDuplicates_eq_self {α κ : Type} [DecidableEq κ] (key : α → κ)
    (l : List α) (h : (l.map key).Nodup) : dropDuplicates key l = l :=
  dropDupAux_eq_self key [] l h (by simp)

/-- Whole-row deduplication is the identity on a duplicate-free list. -/
theorem dropDuplicates_id_eq_self {α : Type} [DecidableEq α]
    (l : List α) (h : l.Nodup) : dropDuplicates id l = l :=
  dropDuplicates_eq_self id l (by simpa using h)

/-! ### Properties of `transform_data` -/

theorem transform_data_length (raw : List RawTxn) :
    (transform_data raw).length = raw.length := by
  simp [transform_data]

theorem transform_data_map_raw (raw : List RawTxn) :
    (transform_data raw).map (·.raw) = raw := by
  simp only [transform_data, List.map_map]
  have : ((fun t : TransformedTxn => t.raw) ∘ fun p : Nat × RawTxn =>
      (⟨p.2, ageGroup p.2.customer_age, p.2.datetime, p.2.datetime.year,
        p.2.datetime.month, p.2.datetime.day, yearMonthStr p.2.datetime,
        p.1 + 1, p.1 + 1, p.1 + 1, p.1 + 1⟩ : TransformedTxn)) = Prod.snd := rfl
  rw [this, List.enum_map_snd]

theorem transform_data_map_product_key (raw : List RawTxn) :
    (transform_data raw).map (·.product_key) = (List.range raw.length).map (· + 1) := by
  simp only [transform_data, List.map_map]
  rw [show ((fun t : TransformedTxn => t.product_key) ∘ fun p : Nat × RawTxn =>
      (⟨p.2, ageGroup p.2.customer_age, p.2.datetime, p.2.datetime.year,
        p.2.datetime.month, p.2.datetime.day, yearMonthStr p.2.datetime,
        p.1 + 1, p.1 + 1, p.1 + 1, p.1 + 1⟩ : TransformedTxn)) =
      ((· + 1) ∘ Prod.fst) from rfl]
  rw [← List.map_map, List.enum_map_fst]

theorem transform_data_map_staff_key (raw : List RawTxn) :
    (transform_data raw).map (·.staff_key) = (List.range raw.length).map (· + 1) := by
  simp only [transform_data, List.map_map]
  rw [show ((fun t : TransformedTxn => t.staff_key) ∘ fun p : Nat × RawTxn =>
      (⟨p.2, ageGroup p.2.customer_age, p.2.datetime, p.2.datetime.year,
        p.2.datetime.month, p.2.datetime.day, yearMonthStr p.2.datetime,
        p.1 + 1, p.1 + 1, p.1 + 1, p.1 + 1⟩ : TransformedTxn)) =
      ((· + 1) ∘ Prod.fst) from rfl]
  rw [← List.map_map, List.enum_map_fst]

theorem transform_data_map_supplier_key (raw : List RawTxn) :
    (transform_data raw).map (·.supplier_key) = (List.range raw.length).map (· + 1) := by
  simp only [transform_data, List.map_map]
  rw [show ((fun t : TransformedTxn => t.supplier_key) ∘ fun p : Nat × RawTxn =>
      (⟨p.2, ageGroup p.2.customer_age, p.2.datetime, p.2.datetime.year,
        p.2.datetime.month, p.2.datetime.day, yearMonthStr p.2.datetime,
        p.1 + 1, p.1 + 1, p.1 + 1, p.1 + 1⟩ : TransformedTxn)) =
      ((· + 1) ∘ Prod.fst) from rfl]
  rw [← List.map_map, List.enum_map_fst]

theorem nodup_range_map_add_one (n : Nat) :
    ((List.range n).map (· + 1)).Nodup :=
  (List.nodup_range n).map (fun _ _ h => by omega)

theorem transform_data_product_key_nodup (raw : List RawTxn) :
    ((transform_data raw).map (·.product_key)).Nodup := by
  rw [transform_data_map_product_key]
  exact nodup_range_map_add_one _

/-! ### The fact-build stages preserve the frame shape

Every working row carries the pairwise-distinct `Product_Key` placeholder,
so the whole-frame `drop_duplicates()` after each merge never removes a
row, and each merge is a pointwise column update. -/

theorem map_txn_update {f : FactWork → FactWork} (hf : ∀ r, (f r).txn = r.txn)
    (rows : List FactWork) :
    (rows.map f).map (fun r => r.txn.product_key) =
      rows.map (fun r => r.txn.product_key) := by
  rw [List.map_map]
  exact List.map_congr_left fun r _ => by
    simp only [Function.comp_apply, hf]

theorem fact_stage_dedup_eq {f : FactWork → FactWork}
    (hf : ∀ r, (f r).txn = r.txn) (rows : List FactWork)
    (hnd : (rows.map fun r => r.txn.product_key).Nodup) :
    dropDuplicates id (rows.map f) = rows.map f := by
  apply dropDuplicates_id_eq_self
  apply List.Nodup.of_map (fun r : FactWork => r.txn.product_key)
  rw [map_txn_update hf]
  exact hnd

theorem assignDateKeyAux_map_txn :
    ∀ (seen : List Nat) (l : List FactWork),
      (assignDateKeyAux seen l).map (·.txn) = l.map (·.txn)
  | _, [] => rfl
  | seen, r :: rs => by
      simp only [assignDateKeyAux, List.map_cons]
      exact congrArg (r.txn :: ·) (assignDateKeyAux_map_txn _ rs)

theorem assignDateKeyAux_length (seen : List Nat) (l : List FactWork) :
    (assignDateKeyAux seen l).length = l.length := by
  have := congrArg List.length (assignDateKeyAux_map_txn seen l)
  simpa using this

theorem assignDateKeyAux_map_pk (seen : List Nat) (l : List FactWork) :
    (assignDateKeyAux seen l).map (fun r => r.txn.product_key) =
      l.map (fun r => r.txn.product_key) := by
  have h := congrArg (List.map (fun t : TransformedTxn => t.product_key))
    (assignDateKeyAux_map_txn seen l)
  simpa [List.map_map] using h

set_option maxRecDepth 4000 in
theorem assignDateKeyAux_getElem :
    ∀ (seen : List Nat) (l : List FactWork) (j : Nat)
      (hj : j < l.length) (hj' : j < (assignDateKeyAux seen l).length),
      (assignDateKeyAux seen l)[j] =
        { l[j] with date_key :=
            if dateKey l[j].txn.raw.datetime ∈ seen ∨
               dateKey l[j].txn.raw.datetime ∈
                 (l.take j).map (fun s => dateKey s.txn.raw.datetime)
            then none else some (dateKey l[j].txn.raw.datetime) }
  | seen, r :: rs, 0, _, _ => by
      simp [assignDateKeyAux]
  | seen, r :: rs, j + 1, hj, hj' => by
      have hjs : j < rs.length := by simpa using hj
      simp only [assignDateKeyAux, List.getElem_cons_succ, List.take_succ_cons,
        List.map_cons]
      rw [assignDateKeyAux_getElem (dateKey r.txn.raw.datetime :: seen) rs j
        hjs (by rw [assignDateKeyAux_length]; exact hjs)]
      simp only [List.mem_cons, or_assoc, or_left_comm]

/-- The `date_key` column produced by `Series.drop_duplicates()` followed
by index-aligned assignment, described on the list of `YYYYMMDD` values
alone: a position keeps its value iff the value is new. -/
def dateKeyMarks (seen : List Nat) : List Nat → List (Option Nat)
  | [] => []
  | k :: ks => (if k ∈ seen then none else some k) :: dateKeyMarks (k :: seen) ks

theorem assignDateKeyAux_marks :
    ∀ (seen : List Nat) (l : List FactWork),
      (assignDateKeyAux seen l).map (·.date_key) =
        dateKeyMarks seen (l.map fun r => dateKey r.txn.raw.datetime)
  | _, [] => rfl
  | seen, r :: rs => by
      simp only [assignDateKeyAux, List.map_cons, dateKeyMarks]
      exact congrArg _ (assignDateKeyAux_marks _ rs)

theorem dateKeyMarks_length (seen : List Nat) :
    ∀ ks : List Nat, (dateKeyMarks seen ks).length = ks.length := by
  intro ks
  induction ks generalizing seen with
  | nil => rfl
  | cons k ks ih => simp [dateKeyMarks, ih]

theorem dateKeyMarks_getElem :
    ∀ (seen : List Nat) (ks : List Nat) (j : Nat)
      (hj : j < ks.length) (hj' : j < (dateKeyMarks seen ks).length),
      (dateKeyMarks seen ks)[j] =
        if ks[j] ∈ seen ∨ ks[j] ∈ ks.take j then none else some ks[j]
  | seen, k :: ks, 0, _, _ => by
      simp [dateKeyMarks]
  | seen, k :: ks, j + 1, hj, hj' => by
      have hjs : j < ks.length := by simpa using hj
      simp only [dateKeyMarks, List.getElem_cons_succ, List.take_succ_cons]
      rw [dateKeyMarks_getElem (k :: seen) ks j hjs
        (by rw [dateKeyMarks_length]; exact hjs)]
      simp only [List.mem_cons, or_assoc, or_left_comm]

theorem fact_stage0_map_pk (df : List TransformedTxn) :
    (fact_stage0 df).map (fun r => r.txn.product_key) =
      df.map (·.product_key) := by
  simp only [fact_stage0, List.map_map]
  rfl

/-- The per-row `Product_Key` placeholders are pairwise distinct, so none
of the whole-frame `drop_duplicates()` calls removes a row and the whole
fact build is the composition of the pointwise merge maps around the
`date_key` assignment. -/
theorem populate_fact_table_eq (df : List TransformedTxn) (pm : List Nat)
    (cm : List (Nat × Nat)) (dd : List DimDateRow)
    (sm supm : List (Nat × Nat))
    (hnd : (df.map (·.product_key)).Nodup) :
    populate_fact_table df pm cm dd sm supm =
      (assignDateKey (((fact_stage0 df).map (mergeProduct pm)).map
        (mergeCustomer cm))).map
        (fun r => factSelect (mergeSupplier supm (mergeStaff sm r))) := by
  have h0 : ((fact_stage0 df).map (fun r => r.txn.product_key)).Nodup := by
    rw [fact_stage0_map_pk]; exact hnd
  have e1 : fact_stage1 pm (fact_stage0 df) =
      (fact_stage0 df).map (mergeProduct pm) :=
    fact_stage_dedup_eq (f := mergeProduct pm) (fun _ => rfl) _ h0
  have h1 : (((fact_stage0 df).map (mergeProduct pm)).map
      (fun r => r.txn.product_key)).Nodup := by
    rw [map_txn_update (f := mergeProduct pm) (fun _ => rfl)]; exact h0
  have e2 : fact_stage2 cm ((fact_stage0 df).map (mergeProduct pm)) =
      ((fact_stage0 df).map (mergeProduct pm)).map (mergeCustomer cm) :=
    fact_stage_dedup_eq (f := mergeCustomer cm) (fun _ => rfl) _ h1
  have h2 : ((((fact_stage0 df).map (mergeProduct pm)).map
      (mergeCustomer cm)).map (fun r => r.txn.product_key)).Nodup := by
    rw [map_txn_update (f := mergeCustomer cm) (fun _ => rfl)]; exact h1
  have h3 : ((assignDateKey (((fact_stage0 df).map (mergeProduct pm)).map
      (mergeCustomer cm))).map (fun r => r.txn.product_key)).Nodup := by
    rw [assignDateKey, assignDateKeyAux_map_pk]; exact h2
  have e4 : fact_stage4 sm (assignDateKey (((fact_stage0 df).map
      (mergeProduct pm)).map (mergeCustomer cm))) =
      (assignDateKey (((fact_stage0 df).map (mergeProduct pm)).map
        (mergeCustomer cm))).map (mergeStaff sm) :=
    fact_stage_dedup_eq (f := mergeStaff sm) (fun _ => rfl) _ h3
  have h4 : (((assignDateKey (((fact_stage0 df).map (mergeProduct pm)).map
      (mergeCustomer cm))).map (mergeStaff sm)).map
      (fun r => r.txn.product_key)).Nodup := by
    rw [map_txn_update (f := mergeStaff sm) (fun _ => rfl)]; exact h3
  have e5 : fact_stage5 supm ((assignDateKey (((fact_stage0 df).map
      (mergeProduct pm)).map (mergeCustomer cm))).map (mergeStaff sm)) =
      ((assignDateKey (((fact_stage0 df).map (mergeProduct pm)).map
        (mergeCustomer cm))).map (mergeStaff sm)).map (mergeSupplier supm) :=
    fact_stage_dedup_eq (f := mergeSupplier supm) (fun _ => rfl) _ h4
  unfold populate_fact_table
  rw [e1, e2, e4, e5, List.map_map, List.map_map]
  rfl

/-- Under the distinct-placeholder invariant the joins neither fan out nor
drop rows: the built fact frame has exactly one row per input row. -/
theorem populate_fact_table_length (df : List TransformedTxn) (pm : List Nat)
    (cm : List (Nat × Nat)) (dd : List DimDateRow)
    (sm supm : List (Nat × Nat))
    (hnd : (df.map (·.product_key)).Nodup) :
    (populate_fact_table df pm cm dd sm supm).length = df.length := by
  rw [populate_fact_table_eq df pm cm dd sm supm hnd]
  simp [assignDateKey, assignDateKeyAux_length, fact_stage0]

/-- The `date_key` column of the built fact table is the de-duplicated,
index-aligned `YYYYMMDD` series of line 179. -/
theorem populate_fact_table_date_column (df : List TransformedTxn)
    (pm : List Nat) (cm : List (Nat × Nat)) (dd : List DimDateRow)
    (sm supm : List (Nat × Nat))
    (hnd : (df.map (·.product_key)).Nodup) :
    (populate_fact_table df pm cm dd sm supm).map (·.date_key) =
      dateKeyMarks [] (df.map fun t => dateKey t.raw.datetime) := by
  rw [populate_fact_table_eq df pm cm dd sm supm hnd, List.map_map]
  have : ((fun f : FactRow => f.date_key) ∘
      fun r => factSelect (mergeSupplier supm (mergeStaff sm r))) =
      (fun r : FactWork => r.date_key) := rfl
  rw [this, assignDateKey, assignDateKeyAux_marks]
  simp only [fact_stage0, List.map_map]
  rfl

/-! ### Calendar lemmas -/

theorem daysInMonth_pos (y m : Nat) : 1 ≤ daysInMonth y m := by
  unfold daysInMonth
  split
  · split <;> omega
  · split <;> omega

theorem daysInMonth_le_31 (y m : Nat) : daysInMonth y m ≤ 31 := by
  unfold daysInMonth
  split
  · split <;> omega
  · split <;> omega

theorem dateKey_inj {d₁ d₂ : Date} (h₁ : validDate d₁) (h₂ : validDate d₂)
    (h : dateKey d₁ = dateKey d₂) : d₁ = d₂ := by
  obtain ⟨a₁, a₂, a₃, a₄⟩ := h₁
  obtain ⟨b₁, b₂, b₃, b₄⟩ := h₂
  have c₁ := daysInMonth_le_31 d₁.year d₁.month
  have c₂ := daysInMonth_le_31 d₂.year d₂.month
  unfold dateKey at h
  have hy : d₁.year = d₂.year := by omega
  have hm : d₁.month = d₂.month := by omega
  have hd : d₁.day = d₂.day := by omega
  cases d₁
  cases d₂
  simp only at hy hm hd
  subst hy hm hd
  rfl

theorem validDate_nextDate {d : Date} (h : validDate d) :
    validDate (nextDate d) := by
  obtain ⟨h₁, h₂, h₃, h₄⟩ := h
  unfold nextDate
  split
  next hlt =>
    refine ⟨?_, ?_, ?_, ?_⟩ <;> dsimp only <;> omega
  next hge =>
    split
    next hm =>
      refine ⟨?_, ?_, ?_, ?_⟩ <;> dsimp only
      · omega
      · omega
      · omega
      · exact daysInMonth_pos _ _
    next hm =>
      refine ⟨?_, ?_, ?_, ?_⟩ <;> dsimp only
      · omega
      · omega
      · omega
      · exact daysInMonth_pos _ _

theorem dateKey_lt_nextDate {d : Date} (h : validDate d) :
    dateKey d < dateKey (nextDate d) := by
  obtain ⟨h₁, h₂, h₃, h₄⟩ := h
  have h31 := daysInMonth_le_31 d.year d.month
  unfold nextDate dateKey
  split
  next hlt => dsimp only; omega
  next hge =>
    split
    next hm => dsimp only; omega
    next hm => dsimp only; omega

theorem validDate_iterate {d : Date} (h : validDate d) (n : Nat) :
    validDate (nextDate^[n] d) := by
  induction n with
  | zero => exact h
  | succ n ih =>
      rw [Function.iterate_succ_apply']
      exact validDate_nextDate ih

theorem dateKey_le_iterate {d : Date} (h : validDate d) (n : Nat) :
    dateKey d + n ≤ dateKey (nextDate^[n] d) := by
  induction n with
  | zero => simp
  | succ n ih =>
      rw [Function.iterate_succ_apply']
      have := dateKey_lt_nextDate (validDate_iterate h n)
      omega

theorem iterate_nextDate_ne {d : Date} (h : validDate d) (n : Nat) :
    d ≠ nextDate^[n + 1] d := by
  intro he
  have := dateKey_le_iterate h (n + 1)
  rw [← he] at this
  omega

theorem range_map_iterate_succ (g : Date → Date) (d : Date) (n : Nat) :
    (List.range (n + 1)).map (fun k => g^[k] d) =
      d :: (List.range n).map (fun k => g^[k] (g d)) := by
  rw [List.range_succ_eq_map]
  simp only [List.map_cons, Function.iterate_zero_apply, List.map_map]
  exact congrArg (d :: ·)
    (List.map_congr_left fun k _ => Function.iterate_succ_apply g k d)

theorem dateRangeAux_spec (n : Nat) :
    ∀ (d : Date), validDate d → ∀ fuel, n + 1 ≤ fuel →
      dateRangeAux fuel d (nextDate^[n] d) =
        (List.range (n + 1)).map (fun k => nextDate^[k] d) := by
  induction n with
  | zero =>
      intro d _ fuel hfuel
      match fuel, hfuel with
      | f + 1, _ => simp [dateRangeAux]
  | succ n ih =>
      intro d hd fuel hfuel
      match fuel, hfuel with
      | f + 1, hf =>
          simp only [dateRangeAux, if_neg (iterate_nextDate_ne hd n)]
          rw [Function.iterate_succ_apply]
          rw [ih (nextDate d) (validDate_nextDate hd) f (by omega)]
          conv_rhs => rw [range_map_iterate_succ]

/-- `pd.date_range(min, max, freq='D')` where `max` is `n` days after
`min`: exactly the days `min, min+1, …, min+n`. -/
theorem dateRange_iterate (d : Date) (n : Nat) (h : validDate d) :
    dateRange d (nextDate^[n] d) =
      (List.range (n + 1)).map (fun k => nextDate^[k] d) := by
  unfold dateRange
  apply dateRangeAux_spec n d h
  have := dateKey_le_iterate h n
  omega

/-! ### Aggregate lemmas -/

theorem innerJoin_filter_left {α β : Type} (p : α → Bool) (l : List α)
    (r : List β) (c : α → β → Bool) :
    innerJoin (l.filter p) r c = (innerJoin l r c).filter fun x => p x.1 := by
  induction l with
  | nil => rfl
  | cons a l ih =>
      simp only [innerJoin, List.filter_cons] at *
      by_cases hp : p a
      · simp only [hp, if_pos, List.flatMap_cons, List.filter_append, ih]
        congr 1
        rw [List.filter_map]
        have : ((fun x : α × β => p x.1) ∘ fun b => (a, b)) = fun _ => true := by
          funext b
          simp [hp]
        rw [this, List.filter_true]
      · simp only [hp, if_neg, List.flatMap_cons, List.filter_append, ih,
          Bool.false_eq_true, not_false_iff]
        rw [List.filter_map]
        have : ((fun x : α × β => p x.1) ∘ fun b => (a, b)) = fun _ => false := by
          funext b
          simp [hp]
        rw [this, List.filter_false]
        rfl

/-- Pre-filtering the fact rows to Completed status does not change the
Completed product join: the `WHERE` clause already performs that filter. -/
theorem completedProductJoin_filter (facts : List FactRow)
    (prods : List ProductRow) :
    completedProductJoin
      (facts.filter fun f => f.transaction_status == "Completed") prods =
      completedProductJoin facts prods := by
  unfold completedProductJoin
  rw [innerJoin_filter_left, List.filter_filter]
  congr 1
  funext x
  rw [Bool.and_self]

theorem agg_revenue_rows_filter (facts : List FactRow)
    (prods : List ProductRow) :
    agg_revenue_rows
      (facts.filter fun f => f.transaction_status == "Completed") prods =
      agg_revenue_rows facts prods := by
  unfold agg_revenue_rows
  rw [completedProductJoin_filter]

theorem agg_ptd_rows_filter (facts : List FactRow) (prods : List ProductRow) :
    agg_ptd_rows
      (facts.filter fun f => f.transaction_status == "Completed") prods =
      agg_ptd_rows facts prods := by
  unfold agg_ptd_rows
  rw [completedProductJoin_filter]

theorem agg_customer_rows_filter (facts : List FactRow)
    (custs : List CustomerRow) (dates : List DimDateRow) :
    agg_customer_rows
      (facts.filter fun f => f.transaction_status == "Completed") custs dates =
      agg_customer_rows facts custs dates := by
  simp only [agg_customer_rows]
  rw [innerJoin_filter_left, innerJoin_filter_left, List.filter_filter]
  have hp : (fun a : (FactRow × CustomerRow) × DimDateRow =>
      a.1.1.transaction_status == "Completed" &&
        a.1.1.transaction_status == "Completed") =
      fun x : (FactRow × CustomerRow) × DimDateRow =>
        x.1.1.transaction_status == "Completed" := by
    funext a
    rw [Bool.and_self]
  rw [hp]

/-- Every fact row, whatever its status, is counted by the status-by-order-
type aggregate: its `(order_type, status)` group is present with the full
count of matching rows. -/
theorem mem_agg_status_rows (facts : List FactRow) (f : FactRow)
    (hf : f ∈ facts) :
    ∃ row ∈ agg_status_rows facts,
      row.order_type = f.order_type ∧
      row.transaction_status = f.transaction_status ∧
      row.record_count = (facts.filter fun g =>
        decide ((g.order_type, g.transaction_status) =
          (f.order_type, f.transaction_status))).length := by
  unfold agg_status_rows sqlGroupBy
  have hmem : (f.order_type, f.transaction_status) ∈
      facts.map fun g => (g.order_type, g.transaction_status) :=
    List.mem_map_of_mem _ hf
  have hk : (f.order_type, f.transaction_status) ∈
      dropDuplicates id (facts.map fun g =>
        (g.order_type, g.transaction_status)) := by
    have h2 := (mem_map_key_dropDuplicates id
      (facts.map fun g => (g.order_type, g.transaction_status))
      (f.order_type, f.transaction_status)).mpr (by simpa using hmem)
    simpa using h2
  exact ⟨_, List.mem_map_of_mem _ hk, rfl, rfl, rfl⟩

/-! ### Concrete fixtures -/

/-- A concrete Completed transaction (Jan 5 2024, product 7, customer 1,
staff 4, supplier 9, age 30). -/
def rawA : RawTxn :=
  { transaction_id := 1, datetime := ⟨2024, 1, 5⟩, product_id := 7
    customer_id := 1, staff_id := 4, supplier_id := 9, product_name := "a"
    category := "Phone", brand := "b", model := "m", product_type := "t"
    unit_price := 10, order_type := "Delivery", payment_method := "Card"
    transaction_status := "Completed", quantity := 1, total_amount := 1000
    discount_applied := 0, delivery_time_min := 30, customer_rating := 5
    inventory_level := 3, customer_age := 30, customer_gender := "F" }

/-- A second transaction with the SAME product, staff, supplier and date as
`rawA` but a different customer. -/
def rawB : RawTxn := { rawA with transaction_id := 2, customer_id := 2 }

/-- A transaction five calendar days after `rawA`. -/
def rawJan10 : RawTxn :=
  { rawA with transaction_id := 3, customer_id := 3, datetime := ⟨2024, 1, 10⟩ }

/-- A transaction whose customer age (150) is outside every `pd.cut` bin. -/
def rawBadAge : RawTxn :=
  { rawA with transaction_id := 4, customer_age := 150 }

/-- A database with every table empty. -/
def emptyWarehouse : Warehouse :=
  ⟨[], [], [], [], [], [], [], [], [], []⟩

/-- A database holding one previously published status aggregate row. -/
def wPrev : Warehouse :=
  { emptyWarehouse with
      agg_kpi_status_by_order_type := [⟨"Delivery", "Completed", 1⟩] }

/-! ### Claims -/

/-- **C1** (refuted, code bug): referential integrity of the fact table
fails.  On the two-transaction batch `[rawA, rawB]` sharing one product id,
the fact table carries the per-row placeholder keys 1 and 2, while
`dim_product` (deduplicated on `Product_ID`) keeps only the key of the
first occurrence — so some fact row's `product_key` matches no
`dim_product` row. -/
theorem claim_C1 :
    ∃ f ∈ pipeline_fact_table [rawA, rawB],
      ∀ p ∈ dim_product (transform_data [rawA, rawB]),
        p.product_key ≠ f.product_key := by decide

/-- **C2** (refuted, code bug): surrogate keys are assigned per ROW before
deduplication, not per distinct natural key.  `rawA` and `rawB` carry the
same `Product_ID` yet resolve to surrogate keys 1 and 2 in the fact table,
while `dim_product` holds only key 1. -/
theorem claim_C2 :
    rawA.product_id = rawB.product_id ∧
    (pipeline_fact_table [rawA, rawB]).map (·.product_key) = [1, 2] ∧
    (dim_product (transform_data [rawA, rawB])).map (·.product_key) = [1] := by
  decide

/-- **C3** (counterexample): `dim_staff` does NOT contain exactly one row
per distinct natural key — `drop_duplicates()` with no subset dedups on the
`(staff_id, staff_key)` pair, and the per-row `Staff_Key` makes every pair
unique: one staff id observed, two rows stored. -/
theorem claim_C3_counterexample :
    ((transform_data [rawA, rawB]).map fun t => t.raw.staff_id) = [4, 4] ∧
    (dim_staff (transform_data [rawA, rawB])).map (·.staff_id) = [4, 4] ∧
    ¬ ((dim_staff (transform_data [rawA, rawB])).map (·.staff_id)).Nodup := by
  decide

/-- **C3** (amended): `dim_product` and `dim_customer` contain exactly one
row per distinct natural key observed in the batch (duplicate-free key
column covering exactly the observed ids); `dim_staff` and `dim_supplier`
are deduplicated on the `(natural id, per-row key)` pair and therefore
contain one row per input transaction. -/
theorem claim_C3 (raw : List RawTxn) :
    ((dim_product (transform_data raw)).map (·.product_id)).Nodup ∧
    (∀ k, k ∈ (dim_product (transform_data raw)).map (·.product_id) ↔
      k ∈ raw.map (·.product_id)) ∧
    ((dim_customer (transform_data raw)).map (·.customer_id)).Nodup ∧
    (∀ k, k ∈ (dim_customer (transform_data raw)).map (·.customer_id) ↔
      k ∈ raw.map (·.customer_id)) ∧
    (dim_staff (transform_data raw)).length = raw.length ∧
    (dim_supplier (transform_data raw)).length = raw.length := by
  have hraw : ∀ g : RawTxn → Nat,
      (transform_data raw).map (fun t => g t.raw) = raw.map g := by
    intro g
    conv_rhs => rw [← transform_data_map_raw raw]
    rw [List.map_map]
    rfl
  have eprod : (dim_product (transform_data raw)).map (·.product_id) =
      (dropDuplicates (fun t : TransformedTxn => t.raw.product_id)
        (transform_data raw)).map (fun t => t.raw.product_id) := by
    simp only [dim_product, List.map_map]
    rfl
  have ecust : (dim_customer (transform_data raw)).map (·.customer_id) =
      (dropDuplicates (fun t : TransformedTxn => t.raw.customer_id)
        (transform_data raw)).map (fun t => t.raw.customer_id) := by
    simp only [dim_customer, List.map_map]
    rfl
  refine ⟨?_, ?_, ?_, ?_, ?_, ?_⟩
  · rw [eprod]
    exact dropDuplicates_key_nodup _ _
  · intro k
    rw [eprod, mem_map_key_dropDuplicates, hraw (·.product_id)]
  · rw [ecust]
    exact dropDuplicates_key_nodup _ _
  · intro k
    rw [ecust, mem_map_key_dropDuplicates, hraw (·.customer_id)]
  · have hnd : ((transform_data raw).map fun t =>
        (t.raw.staff_id, t.staff_key)).Nodup := by
      apply List.Nodup.of_map Prod.snd
      rw [List.map_map]
      exact (by rw [transform_data_map_staff_key]
                exact nodup_range_map_add_one _ :
        ((transform_data raw).map (·.staff_key)).Nodup)
    simp only [dim_staff, dropDuplicates_eq_self _ _ hnd, List.length_map]
    exact transform_data_length raw
  · have hnd : ((transform_data raw).map fun t =>
        (t.raw.supplier_id, t.supplier_key)).Nodup := by
      apply List.Nodup.of_map Prod.snd
      rw [List.map_map]
      exact (by rw [transform_data_map_supplier_key]
                exact nodup_range_map_add_one _ :
        ((transform_data raw).map (·.supplier_key)).Nodup)
    simp only [dim_supplier, dropDuplicates_eq_self _ _ hnd, List.length_map]
    exact transform_data_length raw

/-- **C5** (confirmed): for a non-empty batch the fact table has exactly as
many rows as the extract — the left merges against deduplicated mappings
neither fan out nor drop rows, and the whole-frame `drop_duplicates()`
calls remove nothing because the per-row `Product_Key` placeholders are
pairwise distinct. -/
theorem claim_C5 (raw : List RawTxn) (_hne : raw ≠ []) :
    (pipeline_fact_table raw).length = raw.length := by
  simp only [pipeline_fact_table]
  rw [populate_fact_table_length _ _ _ _ _ _
    (transform_data_product_key_nodup raw), transform_data_length]

/-- Witness for C5 at the one-transaction batch `[rawA]`. -/
theorem claim_C5_witness : (pipeline_fact_table [rawA]).length = 1 :=
  claim_C5 [rawA] (by decide)

/-- **C6** (counterexample): the pipeline is NOT idempotent for the
aggregate tables, and aggregate rows DO survive later runs: the aggregate
`INSERT`s append to the existing tables (no drop/truncate), so a second run
on the identical batch leaves each aggregate table duplicated. -/
theorem claim_C6_counterexample :
    (run_pipeline (run_pipeline emptyWarehouse [rawA] none) [rawA]
        none).agg_kpi_status_by_order_type ≠
      (run_pipeline emptyWarehouse [rawA] none).agg_kpi_status_by_order_type ∧
    (run_pipeline (run_pipeline emptyWarehouse [rawA] none) [rawA]
        none).agg_kpi_status_by_order_type =
      (run_pipeline emptyWarehouse [rawA] none).agg_kpi_status_by_order_type ++
        (run_pipeline emptyWarehouse [rawA] none).agg_kpi_status_by_order_type := by
  decide

/-- **C6** (amended): running the pipeline twice on an identical batch
replaces the dimension and fact tables with identical contents (replace
semantics, same surrogate keys), but each aggregate table is appended to:
after the second run it equals the first run's table concatenated with a
fresh copy of the same aggregate rows, so rows from the first run
survive. -/
theorem claim_C6 (w : Warehouse) (raw : List RawTxn) :
    (run_pipeline (run_pipeline w raw none) raw none).dim_product =
      (run_pipeline w raw none).dim_product ∧
    (run_pipeline (run_pipeline w raw none) raw none).dim_customer =
      (run_pipeline w raw none).dim_customer ∧
    (run_pipeline (run_pipeline w raw none) raw none).dim_date =
      (run_pipeline w raw none).dim_date ∧
    (run_pipeline (run_pipeline w raw none) raw none).dim_staff =
      (run_pipeline w raw none).dim_staff ∧
    (run_pipeline (run_pipeline w raw none) raw none).dim_supplier =
      (run_pipeline w raw none).dim_supplier ∧
    (run_pipeline (run_pipeline w raw none) raw none).fact_transactions =
      (run_pipeline w raw none).fact_transactions ∧
    (run_pipeline (run_pipeline w raw none) raw none).agg_kpi_revenue_by_dimension =
      (run_pipeline w raw none).agg_kpi_revenue_by_dimension ++
        agg_revenue_rows (run_pipeline w raw none).fact_transactions
          (run_pipeline w raw none).dim_product ∧
    (run_pipeline (run_pipeline w raw none) raw none).agg_kpi_status_by_order_type =
      (run_pipeline w raw none).agg_kpi_status_by_order_type ++
        agg_status_rows (run_pipeline w raw none).fact_transactions ∧
    (run_pipeline (run_pipeline w raw none) raw none).agg_customer_metrics =
      (run_pipeline w raw none).agg_customer_metrics ++
        agg_customer_rows (run_pipeline w raw none).fact_transactions
          (run_pipeline w raw none).dim_customer
          (run_pipeline w raw none).dim_date ∧
    (run_pipeline (run_pipeline w raw none) raw none).agg_product_type_distribution =
      (run_pipeline w raw none).agg_product_type_distribution ++
        agg_ptd_rows (run_pipeline w raw none).fact_transactions
          (run_pipeline w raw none).dim_product :=
  ⟨rfl, rfl, rfl, rfl, rfl, rfl, rfl, rfl, rfl, rfl⟩

/-- **C7** (counterexample): on an aggregate failure the transaction IS
rolled back (previously published aggregates stay), but the exception is
swallowed inside `create_aggregate_tables` (lines 324-326) and the run
exits with code 0, NOT non-zero. -/
theorem claim_C7_counterexample :
    (main_run wPrev [rawA] (some 1)).2 = 0 ∧
    (run_pipeline wPrev [rawA] (some 1)).agg_kpi_status_by_order_type =
      [⟨"Delivery", "Completed", 1⟩] := by decide

/-- **C7** (amended): a failure injected into any of the four aggregate
`INSERT`s rolls the transaction back so all four aggregate tables keep
exactly their previous contents (all-or-none holds and previously
published aggregates remain valid), but the error is caught and printed
inside the aggregate step: the run continues and exits with code 0. -/
theorem claim_C7 (w : Warehouse) (raw : List RawTxn) (k : Fin 4) :
    (run_pipeline w raw (some k)).agg_kpi_revenue_by_dimension =
      w.agg_kpi_revenue_by_dimension ∧
    (run_pipeline w raw (some k)).agg_kpi_status_by_order_type =
      w.agg_kpi_status_by_order_type ∧
    (run_pipeline w raw (some k)).agg_customer_metrics =
      w.agg_customer_metrics ∧
    (run_pipeline w raw (some k)).agg_product_type_distribution =
      w.agg_product_type_distribution ∧
    (main_run w raw (some k)).2 = 0 :=
  ⟨rfl, rfl, rfl, rfl, rfl⟩

/-- **C8** (counterexample): a transaction with age 150 is NOT rejected
with a `ValidationError` — the Transformer is total, keeps the row, and
stores a null age-group label (`pd.cut` yields `NaN` outside the bins). -/
theorem claim_C8_counterexample :
    (transform_data [rawBadAge]).length = 1 ∧
    (transform_data [rawBadAge]).map (·.age_group) = [none] := by decide

/-- **C8** (amended): a row whose age is ≤ 0 or > 100 is passed through
(the output has one row per input row) with a null `Age_Group` label; no
error is raised. -/
theorem claim_C8 (raw : List RawTxn) (i : Nat) (hi : i < raw.length)
    (hage : raw[i].customer_age ≤ 0 ∨ 100 < raw[i].customer_age) :
    (transform_data raw).length = raw.length ∧
    ((transform_data raw).get
      ⟨i, by rw [transform_data_length]; exact hi⟩).age_group = none := by
  refine ⟨transform_data_length raw, ?_⟩
  have hi2 : i < raw.enum.length := by simpa using hi
  simp only [transform_data, List.get_eq_getElem, List.getElem_map,
    List.getElem_enum]
  unfold ageGroup
  split_ifs <;> first | rfl | omega

/-- Witness for C8: the age-150 row of `[rawBadAge]` survives with a null
label. -/
theorem claim_C8_witness :
    ((transform_data [rawBadAge]).get
      ⟨0, by rw [transform_data_length]; exact (by decide)⟩).age_group = none :=
  (claim_C8 [rawBadAge] 0 (by decide) (by decide)).2

/-- **C10** (confirmed): revenue-by-dimension, customer-metrics and
product-type-distribution are insensitive to non-Completed rows (their
`WHERE transaction_status = 'Completed'` filter means pre-restricting the
fact table to Completed rows changes nothing), while status-by-order-type
counts every row of every status: each fact row's `(order_type, status)`
group appears with the full count of matching rows. -/
theorem claim_C10 (facts : List FactRow) (prods : List ProductRow)
    (custs : List CustomerRow) (dates : List DimDateRow) :
    agg_revenue_rows
        (facts.filter fun f => f.transaction_status == "Completed") prods =
      agg_revenue_rows facts prods ∧
    agg_customer_rows
        (facts.filter fun f => f.transaction_status == "Completed")
        custs dates =
      agg_customer_rows facts custs dates ∧
    agg_ptd_rows
        (facts.filter fun f => f.transaction_status == "Completed") prods =
      agg_ptd_rows facts prods ∧
    ∀ f ∈ facts, ∃ row ∈ agg_status_rows facts,
      row.order_type = f.order_type ∧
      row.transaction_status = f.transaction_status ∧
      row.record_count = (facts.filter fun g =>
        decide ((g.order_type, g.transaction_status) =
          (f.order_type, f.transaction_status))).length :=
  ⟨agg_revenue_rows_filter facts prods,
   agg_customer_rows_filter facts custs dates,
   agg_ptd_rows_filter facts prods,
   fun f hf => mem_agg_status_rows facts f hf⟩

/-- A concrete Cancelled fact row. -/
def fCanc : FactRow :=
  { product_key := 1, customer_key := 1, date_key := some 20240105
    staff_key := 1, supplier_key := 1, transaction_id := 9
    transaction_datetime := ⟨2024, 1, 5⟩, order_type := "Delivery"
    payment_method := "Card", transaction_status := "Cancelled"
    quantity := 1, total_amount := 500, discount_applied := 0
    delivery_time_min := 10, customer_rating := 1, inventory_level := 2 }

/-- Witness for C10: a Cancelled row is counted by the status aggregate. -/
theorem claim_C10_witness :
    ∃ row ∈ agg_status_rows [fCanc],
      row.order_type = fCanc.order_type ∧
      row.transaction_status = fCanc.transaction_status ∧
      row.record_count = (([fCanc] : List FactRow).filter fun g =>
        decide ((g.order_type, g.transaction_status) =
          (fCanc.order_type, fCanc.transaction_status))).length :=
  (claim_C10 [fCanc] [] [] []).2.2.2 fCanc (by decide)

/-- **C4** (confirmed): the `date_key` series is de-duplicated before being
assigned as a column, so a fact row receives its `YYYYMMDD` key iff its key
value has not appeared at an earlier position; in particular every row
after the first-occurring row of its calendar date is written with a null
`date_key`. -/
theorem claim_C4 (raw : List RawTxn) (hv : ∀ r ∈ raw, validDate r.datetime)
    (j : Nat) (hj : j < raw.length)
    (hj' : j < (pipeline_fact_table raw).length) :
    ((pipeline_fact_table raw)[j].date_key =
      if raw[j].datetime ∈ (raw.take j).map (·.datetime)
      then none else some (dateKey raw[j].datetime)) ∧
    (∀ i : Nat, ∀ hij : i < j,
      (raw.get ⟨i, Nat.lt_trans hij hj⟩).datetime = raw[j].datetime →
        (pipeline_fact_table raw)[j].date_key = none) := by
  have hcol : (pipeline_fact_table raw).map (·.date_key) =
      dateKeyMarks [] (raw.map fun r => dateKey r.datetime) := by
    simp only [pipeline_fact_table]
    rw [populate_fact_table_date_column _ _ _ _ _ _
      (transform_data_product_key_nodup raw)]
    refine congrArg (dateKeyMarks []) ?_
    conv_rhs => rw [← transform_data_map_raw raw]
    rw [List.map_map]
    rfl
  have hjlen : j < (raw.map fun r => dateKey r.datetime).length := by
    simpa using hj
  have hjm : j < (dateKeyMarks [] (raw.map fun r =>
      dateKey r.datetime)).length := by
    rw [dateKeyMarks_length]; exact hjlen
  have hmap : j < ((pipeline_fact_table raw).map (·.date_key)).length := by
    simpa using hj'
  have h1 : (pipeline_fact_table raw)[j].date_key =
      (dateKeyMarks [] (raw.map fun r => dateKey r.datetime))[j] := by
    have h := List.getElem_of_eq hcol hmap
    simpa using h
  rw [dateKeyMarks_getElem [] _ j hjlen hjm] at h1
  simp only [List.not_mem_nil, false_or] at h1
  rw [List.getElem_map, ← List.map_take] at h1
  have hmem_iff : dateKey raw[j].datetime ∈
      (raw.take j).map (fun r => dateKey r.datetime) ↔
      raw[j].datetime ∈ (raw.take j).map (·.datetime) := by
    simp only [List.mem_map]
    constructor
    · rintro ⟨r, hr, hkey⟩
      exact ⟨r, hr, dateKey_inj (hv r (List.mem_of_mem_take hr))
        (hv _ (List.getElem_mem hj)) hkey⟩
    · rintro ⟨r, hr, hdate⟩
      exact ⟨r, hr, by rw [hdate]⟩
  constructor
  · rw [h1]
    exact if_congr hmem_iff rfl rfl
  · intro i hij hdate
    rw [h1, if_pos]
    refine List.mem_map.mpr
      ⟨raw.get ⟨i, Nat.lt_trans hij hj⟩, ?_, by rw [hdate]⟩
    have hlt : i < (raw.take j).length := by
      rw [List.length_take]
      omega
    have hmem := List.getElem_mem hlt
    rw [List.getElem_take] at hmem
    simpa [List.get_eq_getElem] using hmem

/-- Witness for C4: in `[rawA, rawB]` both transactions fall on
2024-01-05, so the second fact row's `date_key` is null. -/
theorem claim_C4_witness :
    ((pipeline_fact_table [rawA, rawB]).get ⟨1, by decide⟩).date_key = none :=
  (claim_C4 [rawA, rawB] (by decide) 1 (by decide) (by decide)).2 0
    (by decide) (by decide)

/-- **C9** (confirmed): when the batch's maximum date is `n` calendar days
after its minimum date, `dim_date` consists of exactly the `n + 1` rows for
the consecutive days `min, min+1, …, min+n = max` — one row per calendar
day, row count `(max - min).days + 1`, and the `YYYYMMDD` keys strictly
increasing (hence no duplicates and no gaps). -/
theorem claim_C9 (df : List TransformedTxn) (d : Date) (ds : List Date)
    (hdf : df.map (fun t => t.raw.datetime) = d :: ds)
    (n : Nat) (hv : validDate (minDate d ds))
    (hr : maxDate d ds = nextDate^[n] (minDate d ds)) :
    populate_dim_date df =
      (List.range (n + 1)).map
        (fun k => mkDimDateRow (nextDate^[k] (minDate d ds))) ∧
    (populate_dim_date df).length = n + 1 ∧
    (populate_dim_date df).map (·.full_date) =
      (List.range (n + 1)).map (fun k => nextDate^[k] (minDate d ds)) ∧
    ((populate_dim_date df).map (·.date_key)).Chain' (· < ·) ∧
    ((populate_dim_date df).map (·.date_key)).Nodup := by
  have hpop : populate_dim_date df =
      (dateRange (minDate d ds) (maxDate d ds)).map mkDimDateRow := by
    unfold populate_dim_date
    rw [hdf]
  have hmain : populate_dim_date df =
      (List.range (n + 1)).map
        (fun k => mkDimDateRow (nextDate^[k] (minDate d ds))) := by
    rw [hpop, hr, dateRange_iterate _ n hv, List.map_map]
    rfl
  have hkeys : (populate_dim_date df).map (·.date_key) =
      (List.range (n + 1)).map
        (fun k => dateKey (nextDate^[k] (minDate d ds))) := by
    rw [hmain, List.map_map]
    rfl
  have hchain : ((populate_dim_date df).map (·.date_key)).Chain' (· < ·) := by
    rw [hkeys, List.chain'_map]
    rw [show n + 1 = n.succ from rfl, List.chain'_range_succ]
    intro m hm
    rw [Function.iterate_succ_apply']
    exact dateKey_lt_nextDate (validDate_iterate hv m)
  refine ⟨hmain, ?_, ?_, hchain, ?_⟩
  · rw [hmain]
    simp
  · rw [hmain, List.map_map]
    rfl
  · have hpw : ((populate_dim_date df).map (·.date_key)).Pairwise (· < ·) :=
      List.chain'_iff_pairwise.mp hchain
    exact hpw.nodup

/-- Witness for C9: a batch with transactions on Jan 5 and Jan 10 2024
yields a six-day date dimension. -/
theorem claim_C9_witness :
    (populate_dim_date (transform_data [rawA, rawJan10])).length = 5 + 1 :=
  (claim_C9 (transform_data [rawA, rawJan10]) ⟨2024, 1, 5⟩ [⟨2024, 1, 10⟩]
    (by decide) 5 (by decide) (by decide)).2.1

end ETL
